import Mathlib

/-!
Shallow embedding of `kivy/loader.py` (asynchronous image loader).

Conventions of the embedding:

* Python `deque`s (`_q_load`, `_q_done`) are modelled as Lean lists in
  *pop order*: the head of the list is the element that `deque.pop()`
  (the right end of the Python deque) would return next, and
  `deque.appendleft` therefore appends at the *tail* of the model list.
* Python exceptions are modelled with an explicit `PyError` type; a
  function that may raise returns `Except PyError _` or an outcome type
  with an error constructor.
* External collaborators (`ImageLoader.load`, `urllib`, the `Cache`
  store's eviction policy) are modelled abstractly: decoded images are
  opaque `ImageData` values carrying the `nocache` attribute inspected by
  `_update`; the loader cache is an association list without
  eviction/TTL (no claim depends on eviction).
* Python `None` for the filename argument is modelled by `Option String`.
-/

namespace Loader

/-- Errors a modelled Python function can raise. -/
inductive PyError where
  | typeError
  | osError
  | attributeError
  | exception (msg : String)
  deriving DecidableEq, Repr

/-- An opaque decoded image/resource.  `nocache` is the attribute read by
`_update` (`image.nocache`); `val` distinguishes concrete images. -/
structure ImageData where
  val : Nat
  nocache : Bool
  deriving DecidableEq, Repr

/-- A `ProxyImage` client handle: `image` is the currently displayed
resource (initially the loading placeholder), `loaded` the flag set by
the dispatcher, `onLoadCount` the number of times `on_load` fired. -/
structure ProxyImage where
  image : ImageData
  loaded : Bool
  onLoadCount : Nat
  deriving DecidableEq, Repr

/-- A value stored in the `kv.loader` cache for a key: the Python code
stores either `False` (pending marker) or the decoded image. -/
inductive CacheVal where
  | pending
  | resolved (img : ImageData)
  deriving DecidableEq, Repr

/-- The loader cache, keyed by filename.  `Cache.get` returning Python
`None` is modelled by a missing key. -/
def CacheStore := List (String × CacheVal)

/-- `Cache.get('kv.loader', key)`: `none` models Python `None` (absent). -/
def cacheGet (c : CacheStore) (key : String) : Option CacheVal :=
  match c.find? (fun p => p.1 = key) with
  | some p => some p.2
  | none => none

/-- `Cache.append('kv.loader', key, v)`: insert or overwrite. -/
def cacheAppend (c : CacheStore) (key : String) (v : CacheVal) : CacheStore :=
  (key, v) :: (List.filter (fun p => p.1 ≠ key) c)

/-- An entry of `_q_load`, built by `image()`:
`{'filename': ..., 'load_callback': ..., 'post_callback': ..., 'kwargs': ...}`.
A callback models the Python callable's returned value; `Except` lets a
modelled protocol raise.  `kwargs` is reduced to the only option the
loader reads, `nocache`. -/
structure LoadRequest where
  filename : Option String
  load_callback : Option (Option String → ImageData)
  post_callback : Option (ImageData → ImageData)
  nocache : Bool

/-- The mutable state of a `LoaderBase` instance. -/
structure LoaderState where
  loading_image : ImageData
  error_image : ImageData
  num_workers : Int
  max_upload_per_frame : Option Int
  paused : Bool
  q_load : List LoadRequest
  q_done : List (String × ImageData)
  client : List (String × ProxyImage)
  cache : CacheStore
  running : Bool
  start_wanted : Bool

/-- `_set_num_workers`: raises unless `num ≥ 2`; on the raising path the
stored count is untouched, so the state is returned unchanged. -/
def set_num_workers (s : LoaderState) (num : Int) :
    Except PyError Unit × LoaderState :=
  if num < 2 then
    (.error (.exception "Must have at least 2 workers"), s)
  else
    (.ok (), { s with num_workers := num })

/-- `_set_max_upload_per_frame`: raises only when the argument is a
finite value `< 1`; `None` (modelled `none`) is accepted and stored. -/
def set_max_upload_per_frame (s : LoaderState) (num : Option Int) :
    Except PyError Unit × LoaderState :=
  match num with
  | some n =>
      if n < 1 then
        (.error (.exception "Must have at least 1 image processing per image"),
         s)
      else (.ok (), { s with max_upload_per_frame := some n })
  | none => (.ok (), { s with max_upload_per_frame := none })

/-- `pause()`. -/
def pause (s : LoaderState) : LoaderState := { s with paused := true }

/-- `resume()` (the condition-variable notification has no effect on the
modelled state beyond clearing the flag). -/
def resume (s : LoaderState) : LoaderState := { s with paused := false }

/-- `start()` of `LoaderBase`: sets the running flag. -/
def start (s : LoaderState) : LoaderState := { s with running := true }

/-- The deferred-start block at the top of `_update`:
`if self._start_wanted: (if not self._running: self.start());
self._start_wanted = False`. -/
def updateStart (s : LoaderState) : LoaderState :=
  if s.start_wanted then
    let s := if ¬ s.running then start s else s
    { s with start_wanted := false }
  else s

/-- One client pass of `_update` for a drained `(filename, data)` pair:
every binding whose key matches has its handle updated
(`client.image = image; client.loaded = True; dispatch('on_load')`) and
is removed from `self._client`; the net effect on the registry is to
drop every binding for `filename`. -/
def updateClients (client : List (String × ProxyImage)) (filename : String) :
    List (String × ProxyImage) :=
  client.filter (fun p => p.1 ≠ filename)

/-- The `for x in range(max_upload_per_frame)` loop body of `_update`.
Pops from the head of the pop-order list; an empty queue is the
`IndexError` path, which `return`s without reaching `_trigger_update`
(second component `false`).  Completing all iterations reaches the
final `_trigger_update()` (second component `true`). -/
def updateLoop : Nat → LoaderState → LoaderState × Bool
  | 0, s => (s, true)
  | n + 1, s =>
      match s.q_done with
      | [] => (s, false)
      | (filename, data) :: rest =>
          updateLoop n
            { s with
              q_done := rest,
              cache :=
                if ¬ data.nocache then
                  cacheAppend s.cache filename (.resolved data)
                else s.cache,
              client := updateClients s.client filename }

/-- `_update`: deferred start, pause gate, then the quota-bounded drain.
Returns the new state and whether `_trigger_update` was called;
`range(None)` raises `TypeError`. -/
def update (s : LoaderState) : Except PyError (LoaderState × Bool) :=
  let s := updateStart s
  if s.paused then .ok (s, true)
  else
    match s.max_upload_per_frame with
    | none => .error .typeError
    | some m => .ok (updateLoop m.toNat s)

/-- `n` consecutive scheduler ticks (each one invocation of `_update`),
propagating a raised exception. -/
def ticks : Nat → LoaderState → Except PyError LoaderState
  | 0, s => .ok s
  | n + 1, s =>
      match update s with
      | .ok (s', _) => ticks n s'
      | .error e => .error e

/-- `filename.split(':', 1)[0]`: the text before the first `:` of the
key (the whole key when it has no colon) — the scheme prefix. -/
def protoOf (filename : String) : String :=
  (filename.toList.takeWhile (fun c => c ≠ ':')).asString

/-- `image(filename, load_callback, post_callback, **kwargs)`.
Returns the new state, the `ProxyImage` handed to the caller, and
whether `_trigger_update` was called.  Mirrors the three cache
outcomes: resolved hit, pending marker (`False`), absent (`None`). -/
def image (s : LoaderState) (filename : String)
    (load_callback : Option (Option String → ImageData))
    (post_callback : Option (ImageData → ImageData)) (nocache : Bool) :
    LoaderState × ProxyImage × Bool :=
  match cacheGet s.cache filename with
  | some (.resolved data) =>
      -- found image: `data not in (None, False)`
      (s, { image := data, loaded := true, onLoadCount := 0 }, false)
  | other =>
      let client : ProxyImage :=
        { image := s.loading_image, loaded := false, onLoadCount := 0 }
      let s := { s with client := s.client ++ [(filename, client)] }
      match other with
      | none =>
          -- data is None: really the first time
          let req : LoadRequest :=
            { filename := some filename, load_callback := load_callback,
              post_callback := post_callback, nocache := nocache }
          let s := { s with q_load := s.q_load ++ [req] }
          let s :=
            if ¬ nocache then
              { s with cache := cacheAppend s.cache filename .pending }
            else s
          ({ s with start_wanted := true }, client, true)
      | _ =>
          -- data is False: already queued for loading
          (s, client, false)

/-- Outcome of one worker execution of `_load`. -/
inductive LoadOutcome where
  | done (s : LoaderState)
    -- completed: result appended to `_q_done` and `_trigger_update` called
  | backpressure
    -- the worker is sleeping in the `len(_q_done) >= max * workers` loop
  | pausedWait
    -- the worker is blocked in `_wait_for_resume`
  | dropped (s : LoaderState)
    -- the blank-filename `return`: no result, state untouched
  | pyError (e : PyError)

/-- `_load(kwargs)`: backpressure check, pause gate, scheme dispatch,
optional post-processing, completion push.  `localFn`/`urlFn` model the
values computed by `_load_local`/`_load_urllib` for this worker (each
may raise).  A `None` filename makes `filename.split` raise, caught by
the bare `except` which `return`s (the blank-filename path). -/
def load (localFn urlFn : String → Except PyError ImageData)
    (s : LoaderState) (req : LoadRequest) : LoadOutcome :=
  match s.max_upload_per_frame with
  | none => .pyError .typeError -- `None * self._num_workers`
  | some m =>
      if (s.q_done.length : Int) ≥ m * s.num_workers then .backpressure
      else if s.running ∧ s.paused then .pausedWait
      else
        match req.filename with
        | none => .dropped s
        | some filename =>
            let proto := protoOf filename
            let data : Except PyError ImageData :=
              match req.load_callback with
              | some cb => .ok (cb (some filename))
              | none =>
                  if proto = "http" ∨ proto = "https" ∨ proto = "ftp" ∨
                      proto = "smb" then
                    urlFn filename
                  else localFn filename
            match data with
            | .error e => .pyError e
            | .ok d =>
                let d := match req.post_callback with
                  | some pc => pc d
                  | none => d
                .done { s with q_done := s.q_done ++ [(filename, d)] }

/-! ### The network load protocol `_load_urllib`

The protocol manipulates OS resources (a `tempfile.mkstemp` file and
file descriptors) under `try/except/finally`, so the embedding tracks an
explicit machine state and models the exception flow statement by
statement.  `os.close` on an already-closed descriptor raises `OSError`;
`os.close(None)` raises `TypeError` (which the handler's
`except OSError: pass` does not catch).  An exception raised inside the
`finally` block replaces any pending `return` or pending exception and
aborts the rest of the `finally` block. -/

/-- Environment of one `_load_urllib` call: whether the SMB handler can
be imported, and the outcomes of the fetch (`urllib.request.urlopen`
plus `read`) and of the decode (`_load_local` on the temp file). -/
structure UrlEnv where
  smbImportOk : Bool
  fetch : Except PyError Nat
  decode : Except PyError ImageData

/-- OS / local-variable state inside `_load_urllib`. -/
structure UrlMachine where
  tempExists : Bool
  -- the mkstemp temp file currently exists on disk
  osfdOpen : Bool
  -- the mkstemp descriptor is open at OS level
  out_osfd : Bool
  -- the `_out_osfd` variable is non-None (truthy)
  out_filename : Bool
  -- `_out_filename != ''`
  fdOpen : Bool
  -- the `fd` variable holds an open response object
  deriving DecidableEq, Repr

/-- How a `_load_urllib` call ends. -/
inductive UrlOutcome where
  | ret (img : ImageData)
  -- `return data` or `return self.error_image`
  | retNone
  -- the SMB `ImportError` path: bare `return`
  | raised (e : PyError)
  deriving DecidableEq, Repr

/-- `if _out_filename != '': unlink(_out_filename)`. -/
def urlUnlink (m : UrlMachine) : UrlMachine :=
  if m.out_filename then { m with tempExists := false } else m

/-- The `finally` block: close `fd` if set, close `_out_osfd` if set
(raising `OSError` if that descriptor was already closed, which aborts
the block before the `unlink`), then unlink the temp file. -/
def urlFinally (m : UrlMachine) (pending : UrlOutcome) :
    UrlOutcome × UrlMachine :=
  let m := if m.fdOpen then { m with fdOpen := false } else m
  if m.out_osfd then
    if m.osfdOpen then
      (pending, urlUnlink { m with osfdOpen := false })
    else
      (.raised .osError, m)
  else
    (pending, urlUnlink m)

/-- The `except Exception:` handler: log, then
`try: close(_out_osfd) except OSError: pass`, then `return
self.error_image`.  If `_out_osfd` is `None`, `close(None)` raises
`TypeError`, which `except OSError` does not catch, so the handler is
left with that exception pending instead of the `return`. -/
def urlExcept (error_image : ImageData) (m : UrlMachine) :
    UrlOutcome × UrlMachine :=
  if m.out_osfd then
    if m.osfdOpen then
      (.ret error_image, { m with osfdOpen := false })
    else
      -- close raised OSError, caught by `pass`
      (.ret error_image, m)
  else
    (.raised .typeError, m)

/-- `_load_urllib(filename, kwargs)`.  Returns the call's outcome and the
final machine state (in particular whether the temp file still exists).
`mkstemp` is assumed to succeed; a fetch error models `urlopen`/`read`
raising inside the `try`; a decode error models `_load_local` raising
after the temp descriptor was closed and `_out_osfd` reset to `None`. -/
def load_urllib (env : UrlEnv) (s : LoaderState) (filename : String) :
    UrlOutcome × UrlMachine :=
  let proto := protoOf filename
  -- state at entry: `data = fd = _out_osfd = None`, `_out_filename = ''`
  let m0 : UrlMachine :=
    { tempExists := false, osfdOpen := false, out_osfd := false,
      out_filename := false, fdOpen := false }
  if proto = "smb" ∧ ¬ env.smbImportOk then
    -- `except ImportError: Logger.warning(...); return`
    (.retNone, m0)
  else
    -- `_out_osfd, _out_filename = tempfile.mkstemp(...)`
    let m1 : UrlMachine :=
      { tempExists := true, osfdOpen := true, out_osfd := true,
        out_filename := true, fdOpen := false }
    match env.fetch with
    | .error _ =>
        -- `urlopen`/`read` raised inside the `try`
        let (pending, m2) := urlExcept s.error_image m1
        urlFinally m2 pending
    | .ok _ =>
        -- `fd.close(); fd = None; write(_out_osfd, idata);
        --  close(_out_osfd); _out_osfd = None`
        let m2 : UrlMachine := { m1 with osfdOpen := false, out_osfd := false }
        match env.decode with
        | .error _ =>
            -- `_load_local` raised
            let (pending, m3) := urlExcept s.error_image m2
            urlFinally m3 pending
        | .ok img =>
            -- the `imdata.source = filename` tagging has no machine effect
            urlFinally m2 (.ret img)

/-- The `ProxyImage(self.loading_image, loading_image=..., **kwargs)`
handle built on the non-hit paths of `image()`. -/
def loadingProxy (s : LoaderState) : ProxyImage :=
  { image := s.loading_image, loaded := false, onLoadCount := 0 }

/-- The `_q_load` entry dictionary built by `image()` on a first-time
miss. -/
def mkRequest (fn : String) (lc : Option (Option String → ImageData))
    (pc : Option (ImageData → ImageData)) (nc : Bool) : LoadRequest :=
  { filename := some fn, load_callback := lc, post_callback := pc,
    nocache := nc }

/-! ### Concrete fixtures used to instantiate the theorems -/

def img1 : ImageData := { val := 11, nocache := false }

def img2 : ImageData := { val := 12, nocache := false }

def img3 : ImageData := { val := 13, nocache := false }

def okImg : ImageData := { val := 3, nocache := false }

def rimg : ImageData := { val := 7, nocache := false }

/-- A freshly configured, started, unpaused loader with empty queues. -/
def s0 : LoaderState :=
  { loading_image := { val := 1, nocache := false },
    error_image := { val := 2, nocache := false },
    num_workers := 2, max_upload_per_frame := some 2,
    paused := false, q_load := [], q_done := [], client := [],
    cache := [], running := true, start_wanted := false }

/-- `s0` with three backlogged completions. -/
def s1done : LoaderState :=
  { s0 with q_done := [("a", img1), ("b", img2), ("c", img3)] }

/-- The state `_update` leaves from `s1done`: two completions drained
and published, one left for the next tick. -/
def s1after : LoaderState :=
  { s0 with
    q_done := [("c", img3)],
    cache := [("b", CacheVal.resolved img2), ("a", CacheVal.resolved img1)] }

def pausedState : LoaderState := { s0 with paused := true }

/-- `s0` with a pending marker (cache value `False`) for key `k`. -/
def pstate : LoaderState := { s0 with cache := [("k", CacheVal.pending)] }

/-- `s0` with a resolved cache entry for key `k`. -/
def c8state : LoaderState := { s0 with cache := [("k", CacheVal.resolved rimg)] }

/-- A request whose `filename` is Python `None`. -/
def blankReq : LoadRequest :=
  { filename := none, load_callback := none, post_callback := none,
    nocache := false }

/-- A trivial worker oracle for witnesses. -/
def idFn : String → Except PyError ImageData := fun _ => .ok okImg

def maxNoneState : LoaderState := { s0 with max_upload_per_frame := none }

def maxNonePausedState : LoaderState :=
  { s0 with
    max_upload_per_frame := none,
    paused := true }

/-- Network-load environment where `urlopen` raises (connection error)
and decoding would have succeeded. -/
def fetchFailEnv : UrlEnv :=
  { smbImportOk := true, fetch := Except.error (PyError.exception "URLError"),
    decode := Except.ok okImg }

/-- Network-load environment where the download succeeds but
`_load_local` raises (decode error). -/
def decodeFailEnv : UrlEnv :=
  { smbImportOk := true, fetch := Except.ok 0,
    decode := Except.error (PyError.exception "CannotLoadImage") }

/-- Network-load environment where everything succeeds. -/
def fetchOkEnv : UrlEnv :=
  { smbImportOk := true, fetch := Except.ok 0, decode := Except.ok okImg }

/-! ### Basic lemmas about the dispatcher -/

theorem updateStart_q_done (s : LoaderState) :
    (updateStart s).q_done = s.q_done := by
  unfold updateStart start
  split
  · split <;> rfl
  · rfl

theorem updateStart_paused (s : LoaderState) :
    (updateStart s).paused = s.paused := by
  unfold updateStart start
  split
  · split <;> rfl
  · rfl

theorem updateStart_max (s : LoaderState) :
    (updateStart s).max_upload_per_frame = s.max_upload_per_frame := by
  unfold updateStart start
  split
  · split <;> rfl
  · rfl

theorem updateStart_cache (s : LoaderState) :
    (updateStart s).cache = s.cache := by
  unfold updateStart start
  split
  · split <;> rfl
  · rfl

theorem updateStart_client (s : LoaderState) :
    (updateStart s).client = s.client := by
  unfold updateStart start
  split
  · split <;> rfl
  · rfl

/-- After the whole drain loop, `_q_done` holds exactly the entries
beyond the first `min n (length)` ones (in pop order). -/
theorem updateLoop_q_done : ∀ (n : Nat) (s : LoaderState),
    ((updateLoop n s).1).q_done = s.q_done.drop (min n s.q_done.length)
  | 0, s => by simp [updateLoop]
  | n + 1, s => by
      rcases hq : s.q_done with _ | ⟨⟨filename, data⟩, rest⟩
      · simp [updateLoop, hq]
      · have ih := updateLoop_q_done n
          { s with
            q_done := rest,
            cache :=
              if ¬ data.nocache then
                cacheAppend s.cache filename (.resolved data)
              else s.cache,
            client := updateClients s.client filename }
        simp only [updateLoop, hq]
        rw [ih]
        simp [Nat.succ_min_succ]

/-- The drain loop reaches the trailing `_trigger_update()` exactly when
it never hits the `IndexError` path, i.e. when the queue held at least
`n` entries. -/
theorem updateLoop_trigger : ∀ (n : Nat) (s : LoaderState),
    (updateLoop n s).2 = decide (n ≤ s.q_done.length)
  | 0, s => by simp [updateLoop]
  | n + 1, s => by
      rcases hq : s.q_done with _ | ⟨⟨filename, data⟩, rest⟩
      · simp [updateLoop, hq]
      · have ih := updateLoop_trigger n
          { s with
            q_done := rest,
            cache :=
              if ¬ data.nocache then
                cacheAppend s.cache filename (.resolved data)
              else s.cache,
            client := updateClients s.client filename }
        simp only [updateLoop, hq]
        rw [ih]
        simp [Nat.succ_le_succ_iff]

/-- `_update` on an unpaused engine with a finite quota runs the drain
loop on the post-deferred-start state. -/
theorem update_unpaused_eq (s : LoaderState) (m : Int)
    (hp : s.paused = false) (hm : s.max_upload_per_frame = some m) :
    update s = .ok (updateLoop m.toNat (updateStart s)) := by
  simp only [update]
  rw [updateStart_paused, hp, updateStart_max, hm]
  simp

/-- `_update` on a paused engine only runs the deferred-start block and
calls `_trigger_update`. -/
theorem update_paused_eq (s : LoaderState) (hp : s.paused = true) :
    update s = .ok (updateStart s, true) := by
  simp only [update]
  rw [updateStart_paused, hp]
  simp

/-- C1: an unpaused `_update` pops at most `max_upload_per_frame`
entries from `_q_done`, and the queue afterwards is exactly the original
queue minus the popped entries (in pop order, the first
`popped`-many) — no completion is discarded; the rest stay queued for a
later invocation. -/
theorem dispatch_quota_no_drop (s : LoaderState) (m : Int)
    (s' : LoaderState) (trig : Bool)
    (hp : s.paused = false) (hm : s.max_upload_per_frame = some m)
    (hrun : update s = .ok (s', trig)) :
    s.q_done.length - s'.q_done.length ≤ m.toNat ∧
    s'.q_done = s.q_done.drop (s.q_done.length - s'.q_done.length) := by
  rw [update_unpaused_eq s m hp hm] at hrun
  have hs' : s' = (updateLoop m.toNat (updateStart s)).1 := by
    cases hrun' : updateLoop m.toNat (updateStart s)
    rw [hrun'] at hrun
    exact (Prod.mk.injEq _ _ _ _ ▸ Except.ok.inj hrun).1 ▸ rfl
  have hq : s'.q_done = s.q_done.drop (min m.toNat s.q_done.length) := by
    rw [hs', updateLoop_q_done, updateStart_q_done]
  have hlen : s'.q_done.length = s.q_done.length - min m.toNat s.q_done.length := by
    rw [hq, List.length_drop]
  have hcount : s.q_done.length - s'.q_done.length = min m.toNat s.q_done.length := by
    rw [hlen, Nat.sub_sub_self (Nat.min_le_right _ _)]
  constructor
  · rw [hcount]; exact Nat.min_le_left _ _
  · rw [hcount, hq]

theorem dispatch_quota_no_drop_witness :
    s1done.q_done.length - s1after.q_done.length ≤ (2 : Int).toNat ∧
    s1after.q_done =
      s1done.q_done.drop (s1done.q_done.length - s1after.q_done.length) :=
  dispatch_quota_no_drop s1done 2 s1after true rfl rfl rfl

theorem ticks_paused_aux : ∀ (n : Nat) (s s' : LoaderState),
    s.paused = true → ticks n s = .ok s' →
    s'.q_done = s.q_done ∧ s'.cache = s.cache ∧ s'.client = s.client
  | 0, s, s', _, h => by
      simp only [ticks] at h
      cases h
      exact ⟨rfl, rfl, rfl⟩
  | n + 1, s, s', hp, h => by
      have hred : ticks (n + 1) s = ticks n (updateStart s) := by
        simp only [ticks]
        rw [update_paused_eq s hp]
      rw [hred] at h
      have hp' : (updateStart s).paused = true := by
        rw [updateStart_paused]; exact hp
      have ih := ticks_paused_aux n (updateStart s) s' hp' h
      exact ⟨ih.1.trans (updateStart_q_done s),
             ih.2.1.trans (updateStart_cache s),
             ih.2.2.trans (updateStart_client s)⟩

/-- C5: while paused, any number of consecutive `_update` ticks pops
nothing from `_q_done`, writes no cache entry and touches no client
binding; each paused tick only runs the deferred-start block (which
itself preserves those fields) and still calls `_trigger_update`. -/
theorem paused_ticks_inert (n : Nat) (s s' : LoaderState)
    (hp : s.paused = true) (hrun : ticks n s = .ok s') :
    s'.q_done = s.q_done ∧ s'.cache = s.cache ∧ s'.client = s.client ∧
    update s = .ok (updateStart s, true) ∧
    (updateStart s).q_done = s.q_done ∧ (updateStart s).cache = s.cache ∧
    (updateStart s).client = s.client :=
  have h := ticks_paused_aux n s s' hp hrun
  ⟨h.1, h.2.1, h.2.2, update_paused_eq s hp, updateStart_q_done s,
   updateStart_cache s, updateStart_client s⟩

theorem paused_ticks_inert_witness :
    pausedState.q_done = pausedState.q_done ∧
    pausedState.cache = pausedState.cache ∧
    pausedState.client = pausedState.client ∧
    update pausedState = .ok (updateStart pausedState, true) ∧
    (updateStart pausedState).q_done = pausedState.q_done ∧
    (updateStart pausedState).cache = pausedState.cache ∧
    (updateStart pausedState).client = pausedState.client :=
  paused_ticks_inert 3 pausedState pausedState rfl rfl

/-- C6 counterexample: with an empty completion queue, quota 2 and the
engine unpaused, `_update` hits the `IndexError` path on the first loop
iteration and returns without calling `_trigger_update` (re-arm flag
`false`) — so it does not re-arm on every control path. -/
theorem update_rearm_counterexample : update s0 = .ok (s0, false) := rfl

/-- C6 amended: `_update` calls `_trigger_update` when paused and when
the drain loop completes all `max_upload_per_frame` iterations (the
completion queue held at least that many entries); it returns without
re-arming when the queue empties before the quota is reached. -/
theorem update_rearm_amended (s : LoaderState) (m : Int) (s' : LoaderState)
    (trig : Bool) (hm : s.max_upload_per_frame = some m)
    (hrun : update s = .ok (s', trig)) :
    trig = (s.paused || decide (m.toNat ≤ s.q_done.length)) := by
  rcases hp : s.paused
  · rw [update_unpaused_eq s m hp hm] at hrun
    have h2 : (updateLoop m.toNat (updateStart s)).2 = trig :=
      congrArg Prod.snd (Except.ok.inj hrun)
    rw [← h2, updateLoop_trigger, updateStart_q_done]
    simp
  · rw [update_paused_eq s hp] at hrun
    have h2 : true = trig := congrArg Prod.snd (Except.ok.inj hrun)
    rw [← h2]
    simp

theorem update_rearm_amended_witness :
    (true : Bool) = (s1done.paused ||
      decide ((2 : Int).toNat ≤ s1done.q_done.length)) :=
  update_rearm_amended s1done 2 s1after true rfl rfl

/-! ### Lemmas about `image()` -/

theorem cacheGet_cacheAppend (c : CacheStore) (key : String) (v : CacheVal) :
    cacheGet (cacheAppend c key v) key = some v := by
  simp [cacheGet, cacheAppend]

/-- Resolved cache hit: `image` returns a loaded handle wrapping the
cached data and changes nothing. -/
theorem image_resolved_eq (s : LoaderState) (fn : String)
    (lc : Option (Option String → ImageData))
    (pc : Option (ImageData → ImageData)) (nc : Bool) (d : ImageData)
    (h : cacheGet s.cache fn = some (CacheVal.resolved d)) :
    image s fn lc pc nc =
      (s, { image := d, loaded := true, onLoadCount := 0 }, false) := by
  unfold image
  rw [h]

/-- Pending marker: `image` registers a fresh loading handle and does
nothing else. -/
theorem image_pending_eq (s : LoaderState) (fn : String)
    (lc : Option (Option String → ImageData))
    (pc : Option (ImageData → ImageData)) (nc : Bool)
    (h : cacheGet s.cache fn = some CacheVal.pending) :
    image s fn lc pc nc =
      ({ s with client := s.client ++ [(fn, loadingProxy s)] },
       loadingProxy s, false) := by
  unfold image loadingProxy
  rw [h]

/-- Absent key: `image` registers a loading handle, enqueues one
request, writes the pending marker unless `nocache`, and signals the
deferred start. -/
theorem image_absent_eq (s : LoaderState) (fn : String)
    (lc : Option (Option String → ImageData))
    (pc : Option (ImageData → ImageData)) (nc : Bool)
    (h : cacheGet s.cache fn = none) :
    image s fn lc pc nc =
      ({ s with
          client := s.client ++ [(fn, loadingProxy s)],
          q_load := s.q_load ++ [mkRequest fn lc pc nc],
          cache :=
            if ¬ nc then cacheAppend s.cache fn CacheVal.pending else s.cache,
          start_wanted := true },
       loadingProxy s, true) := by
  cases nc <;>
    · unfold image loadingProxy mkRequest
      rw [h]
      rfl

theorem image_pending_iter (fn : String)
    (lc : Option (Option String → ImageData))
    (pc : Option (ImageData → ImageData)) (nc : Bool) :
    ∀ (n : Nat) (t : LoaderState),
    cacheGet t.cache fn = some CacheVal.pending →
    ((fun u => (image u fn lc pc nc).1)^[n] t).q_load = t.q_load ∧
    ((fun u => (image u fn lc pc nc).1)^[n] t).client.length =
      t.client.length + n ∧
    cacheGet ((fun u => (image u fn lc pc nc).1)^[n] t).cache fn =
      some CacheVal.pending
  | 0, t, h => ⟨rfl, rfl, h⟩
  | n + 1, t, h => by
      rw [Function.iterate_succ_apply]
      have hstep : (image t fn lc pc nc).1 =
          { t with client := t.client ++ [(fn, loadingProxy t)] } := by
        rw [image_pending_eq t fn lc pc nc h]
      rw [hstep]
      have ih := image_pending_iter fn lc pc nc n
        { t with client := t.client ++ [(fn, loadingProxy t)] } h
      refine ⟨ih.1, ?_, ih.2.2⟩
      rw [ih.2.1]
      simp
      omega

/-- C2: while the pending marker for a key sits in the cache, each call
to `image` hands out a fresh Loading-state handle showing the loading
placeholder and appends one `(key, handle)` binding to the client
registry, but never touches `_q_load`; `n` such calls grow the registry
by `n` bindings with `_q_load` unchanged.  The single enqueue happened
on the first (absent-key, cacheable) call, which appends exactly one
request and writes the pending marker. -/
theorem image_pending_dedup (s : LoaderState) (fn : String)
    (lc : Option (Option String → ImageData))
    (pc : Option (ImageData → ImageData)) (nc : Bool)
    (hpend : cacheGet s.cache fn = some CacheVal.pending) :
    (image s fn lc pc nc).2.1.loaded = false ∧
    (image s fn lc pc nc).2.1.image = s.loading_image ∧
    (image s fn lc pc nc).1.client =
      s.client ++ [(fn, (image s fn lc pc nc).2.1)] ∧
    (image s fn lc pc nc).1.q_load = s.q_load ∧
    (∀ n : Nat,
      ((fun u => (image u fn lc pc nc).1)^[n] s).q_load = s.q_load ∧
      ((fun u => (image u fn lc pc nc).1)^[n] s).client.length =
        s.client.length + n) ∧
    (∀ t : LoaderState, cacheGet t.cache fn = none → nc = false →
      (image t fn lc pc nc).1.q_load = t.q_load ++ [mkRequest fn lc pc nc] ∧
      cacheGet (image t fn lc pc nc).1.cache fn = some CacheVal.pending) := by
  rw [image_pending_eq s fn lc pc nc hpend]
  refine ⟨rfl, rfl, rfl, rfl, ?_, ?_⟩
  · intro n
    have h := image_pending_iter fn lc pc nc n s hpend
    exact ⟨h.1, h.2.1⟩
  · intro t hab hnc
    subst hnc
    rw [image_absent_eq t fn lc pc false hab]
    exact ⟨rfl, cacheGet_cacheAppend t.cache fn CacheVal.pending⟩

theorem image_pending_dedup_witness :
    (image pstate "k" none none false).1.q_load = pstate.q_load ∧
    ((fun u => (image u "k" none none false).1)^[3] pstate).client.length =
      pstate.client.length + 3 ∧
    (image pstate "k" none none false).2.1.loaded = false :=
  ⟨(image_pending_dedup pstate "k" none none false rfl).2.2.2.1,
   ((image_pending_dedup pstate "k" none none false rfl).2.2.2.2.1 3).2,
   (image_pending_dedup pstate "k" none none false rfl).1⟩

/-- C8 counterexample: the first call for key `k` resolved and its
result is in the cache; a second call with `nocache` set returns the
cached image immediately and leaves the whole state — in particular
`_q_load` — unchanged, so no second request is enqueued. -/
theorem nocache_counterexample :
    image c8state "k" none none true =
      (c8state, { image := rimg, loaded := true, onLoadCount := 0 }, false) ∧
    (image c8state "k" none none true).1.q_load = [] :=
  ⟨rfl, rfl⟩

/-- C8 amended: a call with `nocache` set enqueues a second request only
when the key is absent from the cache (and then writes no pending
marker); while the resolved result is still cached the call returns a
loaded handle and enqueues nothing. -/
theorem nocache_request_amended (s : LoaderState) (fn : String)
    (lc : Option (Option String → ImageData))
    (pc : Option (ImageData → ImageData)) :
    (∀ d : ImageData, cacheGet s.cache fn = some (CacheVal.resolved d) →
      image s fn lc pc true =
        (s, { image := d, loaded := true, onLoadCount := 0 }, false)) ∧
    (cacheGet s.cache fn = none →
      (image s fn lc pc true).1.q_load = s.q_load ++ [mkRequest fn lc pc true] ∧
      (image s fn lc pc true).1.cache = s.cache) := by
  constructor
  · intro d h
    exact image_resolved_eq s fn lc pc true d h
  · intro h
    rw [image_absent_eq s fn lc pc true h]
    exact ⟨rfl, rfl⟩

theorem nocache_request_amended_witness :
    image c8state "k" none none true =
      (c8state, { image := rimg, loaded := true, onLoadCount := 0 }, false) ∧
    (image s0 "k" none none true).1.q_load =
      s0.q_load ++ [mkRequest "k" none none true] :=
  ⟨(nocache_request_amended c8state "k" none none).1 rimg rfl,
   ((nocache_request_amended s0 "k" none none).2 rfl).1⟩

/-- C9: setting `num_workers` below 2 raises and leaves the state (in
particular the stored worker count) unchanged; setting it to 2 or more
succeeds and stores the new value. -/
theorem num_workers_validation (s : LoaderState) (num : Int) :
    (num < 2 → set_num_workers s num =
      (.error (.exception "Must have at least 2 workers"), s)) ∧
    (2 ≤ num → set_num_workers s num =
      (.ok (), { s with num_workers := num })) := by
  constructor
  · intro h
    unfold set_num_workers
    rw [if_pos h]
  · intro h
    unfold set_num_workers
    rw [if_neg (not_lt.mpr h)]

theorem num_workers_validation_witness :
    set_num_workers s0 1 =
      (.error (.exception "Must have at least 2 workers"), s0) ∧
    set_num_workers s0 2 = (.ok (), { s0 with num_workers := 2 }) :=
  ⟨(num_workers_validation s0 1).1 (by decide),
   (num_workers_validation s0 2).2 (by decide)⟩

/-! ### The worker entry point `_load` -/

/-- C7: a request whose key is Python `None` (blank/unparsable: the
`filename.split` call raises) makes `_load` return from the bare
`except`: nothing is appended to `_q_done`, no exception reaches the
caller and no placeholder is produced — the state is handed back
untouched.  (The backpressure and pause gates, which precede the parse,
are assumed open.) -/
theorem load_blank_dropped (s : LoaderState) (req : LoadRequest)
    (localFn urlFn : String → Except PyError ImageData) (m : Int)
    (hm : s.max_upload_per_frame = some m)
    (hbp : (s.q_done.length : Int) < m * s.num_workers)
    (hpg : ¬ (s.running = true ∧ s.paused = true))
    (hfn : req.filename = none) :
    load localFn urlFn s req = .dropped s := by
  simp only [load, hm]
  rw [if_neg (not_le.mpr hbp), if_neg hpg, hfn]

theorem load_blank_dropped_witness :
    load idFn idFn s0 blankReq = .dropped s0 :=
  load_blank_dropped s0 blankReq idFn idFn 2 rfl (by decide) (by decide) rfl

/-- C10 counterexample: with `max_upload_per_frame = None` but the
engine paused, `_update` takes the pause path before ever evaluating
`range(None)` and returns re-armed without raising — so not *every*
invocation of `_update` raises `TypeError`. -/
theorem unlimited_quota_counterexample :
    update maxNonePausedState = .ok (maxNonePausedState, true) := rfl

/-- C10 amended: the setter accepts `None`; with `None` stored, every
invocation of `_update` made while the engine is not paused raises
`TypeError` (`range(None)`), and every worker execution of `_load`
raises `TypeError` in the backpressure comparison
(`None * num_workers`), paused or not. -/
theorem unlimited_quota_type_errors (s : LoaderState) (req : LoadRequest)
    (localFn urlFn : String → Except PyError ImageData)
    (hm : s.max_upload_per_frame = none) :
    (s.paused = false → update s = .error .typeError) ∧
    load localFn urlFn s req = .pyError .typeError ∧
    (set_max_upload_per_frame s none).1 = .ok () := by
  refine ⟨fun hp => ?_, ?_, rfl⟩
  · simp only [update]
    rw [updateStart_paused, hp, updateStart_max, hm]
    simp
  · simp only [load, hm]

theorem unlimited_quota_type_errors_witness :
    update maxNoneState = .error .typeError ∧
    load idFn idFn maxNoneState blankReq = .pyError .typeError :=
  ⟨(unlimited_quota_type_errors maxNoneState blankReq idFn idFn rfl).1 rfl,
   (unlimited_quota_type_errors maxNoneState blankReq idFn idFn rfl).2.1⟩

/-! ### The network load protocol -/

/-- C3 (code bug): on a fetch failure the `except` handler closes the
temp descriptor and begins `return self.error_image`, but the `finally`
block closes the same descriptor a second time — `OSError`, which
replaces the pending return, so the call raises instead of returning
the error placeholder.  On a decode failure `_out_osfd` is already
`None`, `close(None)` raises `TypeError`, and `except OSError` does not
catch it — again the call raises.  The success path returns the decoded
image as intended. -/
theorem urllib_failure_raises_bug :
    (load_urllib fetchFailEnv s0 "http://host/a.png").1 =
      UrlOutcome.raised PyError.osError ∧
    (load_urllib decodeFailEnv s0 "http://host/a.png").1 =
      UrlOutcome.raised PyError.typeError ∧
    (load_urllib fetchOkEnv s0 "http://host/a.png").1 = UrlOutcome.ret okImg :=
  ⟨rfl, rfl, rfl⟩

/-- C4 (code bug): after a fetch failure the `finally` block's second
`close` of the temp descriptor raises `OSError` *before* reaching the
`unlink`, so the temporary file survives the call; on the success and
decode-failure exit paths the `unlink` does run and the file is gone. -/
theorem urllib_tempfile_leak_bug :
    ((load_urllib fetchFailEnv s0 "http://host/a.png").2).tempExists = true ∧
    ((load_urllib fetchOkEnv s0 "http://host/a.png").2).tempExists = false ∧
    ((load_urllib decodeFailEnv s0 "http://host/a.png").2).tempExists =
      false :=
  ⟨rfl, rfl, rfl⟩

end Loader
